import Mathlib

/-!
Verification of the coalescing request/response pipeline of the qr-encoder
repository (src/main.pyw), as a shallow embedding in Lean 4.

The embedding follows the authoritative source file `src/main.pyw`:

* `Request` models the parameter tuple
  `(text, error, version, mode, scale)` built by
  `MainWindow.request_new_qr_code`.
* `MailboxState`, `set_parameters`, `get_parameters` model the single-slot
  mailbox of `WorkerThread` (a `QSemaphore` starting at 0, a `QMutex`, and
  the `parameters` field).
* `SysState` / `Step` give a small-step semantics of the same mailbox in
  which the taker's `semaphore.acquire(1)` is a separate atomic action from
  its mutex-guarded read-and-clear section, as in the code, where the
  acquire happens outside the mutex.
* `runIteration` / `runLoop` model the body of `WorkerThread.run`: the
  `try`/`except ValueError` around `pyqrcode.create`, `qr.png`, and the two
  signals `resultReady` / `errorOccurred`.
* `version_box_range`, `get_version`, `scale_box_value`, `mode_box_items`,
  `request_new_qr_code` model the widget plumbing of `MainWindow.init_ui`
  and `MainWindow.request_new_qr_code` (a `QSpinBox` clamps stored values
  to its `[minimum, maximum]` range).
-/

namespace QrEncoder

/-- The parameter tuple `(text, error, version, mode, scale)` submitted by
`MainWindow.request_new_qr_code` in src/main.pyw.  `version` is `none` for
"Automatic" (the `None` returned by `get_version`), `mode` is `none` for the
"Automatic" combo-box entry. -/
structure Request where
  text : String
  error : String
  version : Option Int
  mode : Option String
  scale : Int
deriving DecidableEq, Repr

/-! ## Widget model (MainWindow.init_ui, src/main.pyw lines 85-109) -/

/-- A `QSpinBox` stores only values clamped into `[lo, hi]`. -/
def spinBoxClamp (lo hi x : Int) : Int := max lo (min hi x)

/-- The version spin box: `setMinimum(0)`, `setMaximum(40)` with special
value text "Automatic" at 0 (src/main.pyw lines 93-96). -/
def version_box_range (x : Int) : Int := spinBoxClamp 0 40 x

/-- Model of `MainWindow.get_version` (src/main.pyw lines 176-181): the
sentinel 0 maps to `None`, every other value passes through. -/
def get_version (v : Int) : Option Int := if v = 0 then none else some v

/-- The scale spin box: `setMinimum(1)`, `setMaximum(10)`, `setValue(5)`
(src/main.pyw lines 106-109). -/
def scale_box_value (x : Int) : Int := spinBoxClamp 1 10 x

/-- The items added to `mode_box` in `MainWindow.init_ui`
(src/main.pyw lines 99-103): display text paired with the item data passed
to the encoder. -/
def mode_box_items : List (String × Option String) :=
  [("Automatic", none),
   ("Numeric", some "numeric"),
   ("Alphanumeric", some "alphanumeric"),
   ("Binary", some "binary")]

/-- The items added to `error_correction_box` (src/main.pyw lines 87-90). -/
def error_correction_box_items : List (String × String) :=
  [("High (30%)", "H"),
   ("Quartile (25%)", "Q"),
   ("Medium (15%)", "M"),
   ("Low (7%)", "L")]

/-- The state of the interactive surface read by `request_new_qr_code`:
the raw values the user set on each widget.  The spin boxes expose them
clamped to their ranges. -/
structure UiState where
  lineEditText : String
  errorCorrectionData : String
  versionBoxRaw : Int
  modeData : Option String
  scaleBoxRaw : Int

/-- Model of `MainWindow.request_new_qr_code` (src/main.pyw lines 140-147):
builds the parameter tuple from the current widget values and submits it. -/
def request_new_qr_code (ui : UiState) : Request :=
  { text := ui.lineEditText
    error := ui.errorCorrectionData
    version := get_version (version_box_range ui.versionBoxRaw)
    mode := ui.modeData
    scale := scale_box_value ui.scaleBoxRaw }

/-! ## Mailbox model (WorkerThread, src/main.pyw lines 20-51)

`WorkerThread.__init__` creates `QSemaphore()` (zero resources), a `QMutex`
and `self.parameters = None`.  `set_parameters` and the mutex-guarded part
of `get_parameters` are critical sections of the same mutex, so each is one
atomic step against the other. -/

/-- The shared state of the mailbox: the `parameters` slot and the count of
the `QSemaphore`. -/
structure MailboxState where
  parameters : Option Request
  semaphore : Nat
deriving DecidableEq, Repr

/-- The state after `WorkerThread.__init__`: empty slot, semaphore at 0. -/
def mailboxInit : MailboxState := { parameters := none, semaphore := 0 }

/-- Model of `WorkerThread.set_parameters` (src/main.pyw lines 40-44):
under the mutex, overwrite the slot, then `release(1)` only if
`available() == 0`. -/
def set_parameters (s : MailboxState) (r : Request) : MailboxState :=
  { parameters := some r
    semaphore := if s.semaphore = 0 then s.semaphore + 1 else s.semaphore }

/-- Model of `WorkerThread.get_parameters` (src/main.pyw lines 46-51), run
to completion from a state where `acquire(1)` does not block
(`0 < semaphore`): the acquire decrements the semaphore, then under the
mutex the slot is read and cleared.  Returns the read slot and the new
state. -/
def get_parameters (s : MailboxState) : Option Request × MailboxState :=
  (s.parameters, { parameters := none, semaphore := s.semaphore - 1 })

/-- A sequence of `set_parameters` calls with no intervening take. -/
def submitAll (s : MailboxState) (rs : List Request) : MailboxState :=
  rs.foldl set_parameters s

/-! ## Small-step mailbox semantics (for the wake-signal discipline)

In `get_parameters` the `semaphore.acquire(1)` happens BEFORE the mutex is
locked, so a `set_parameters` call can interleave between the acquire and
the read-and-clear.  `SysState`/`Step` expose this: `takerAcquired` records
that the worker has passed the acquire but not yet run its mutex section. -/

/-- Mailbox state plus the taker's position between its two atomic
actions. -/
structure SysState where
  slot : Option Request
  sem : Nat
  takerAcquired : Bool
deriving DecidableEq, Repr

/-- Initial state: empty slot, semaphore 0, worker before its acquire. -/
def sysInit : SysState := { slot := none, sem := 0, takerAcquired := false }

/-- Atomic steps of the submitter and the taker, as the code performs them:
`submit` is the whole mutex-guarded body of `set_parameters`; `acquire` is
the taker's `semaphore.acquire(1)` (enabled only when the count is
positive); `takeFinish` is the taker's mutex-guarded read-and-clear, whose
return value is the slot at that moment. -/
inductive Step : SysState → SysState → Prop
  | submit (r : Request) (s : SysState) :
      Step s { slot := some r
               sem := if s.sem = 0 then s.sem + 1 else s.sem
               takerAcquired := s.takerAcquired }
  | acquire (s : SysState) (h : s.takerAcquired = false) (hs : 0 < s.sem) :
      Step s { slot := s.slot, sem := s.sem - 1, takerAcquired := true }
  | takeFinish (s : SysState) (h : s.takerAcquired = true) :
      Step s { slot := none, sem := s.sem, takerAcquired := false }

/-- A state of the mailbox system reachable from the initial state. -/
def Reachable (s : SysState) : Prop := Relation.ReflTransGen Step sysInit s

/-- The discipline the design requires of the wake signal: the release in
`set_parameters` (which fires exactly when the current count is 0) happens
only when the slot is empty, in every reachable state. -/
def wakeOnlyOnEmptyToOccupied : Prop :=
  ∀ s : SysState, Reachable s → s.sem = 0 → s.slot = none

/-- The consequence the design requires: the taker never sits past its
acquire with an empty slot behind it (so `takeFinish` never returns
`None`). -/
def noEmptySlotBehindTake : Prop :=
  ∀ s : SysState, Reachable s → s.takerAcquired = true → s.slot ≠ none

/-! ## Worker loop model (WorkerThread.run, src/main.pyw lines 26-38) -/

/-- PNG bytes produced by `qr.png` into the `io.BytesIO` buffer. -/
abbrev Image := List Nat

/-- The errors an iteration of the worker body can raise: `valueError` is
the `ValueError` the `except` clause catches (pyqrcode validation
failures); `otherError` is any other exception class. -/
inductive QrError
  | valueError (msg : String)
  | otherError (msg : String)
deriving DecidableEq, Repr

/-- The two signals the worker can emit: `resultReady` with the image, or
`errorOccurred` with the error message (src/main.pyw lines 17-18). -/
inductive Emission
  | resultReady (img : Image)
  | errorOccurred (msg : String)
deriving DecidableEq, Repr

/-- One iteration of the `while True` body of `WorkerThread.run` on a
consumed request `r`, given the external encoder-and-rasterizer
`encode` (`pyqrcode.create` followed by `qr.png`): returns the emissions of
the iteration and whether the loop survives it.  `try` emits `resultReady`
on success; `except ValueError` emits `errorOccurred`; any other exception
is uncaught, emits nothing, and terminates the loop. -/
def runIteration (encode : Request → Except QrError Image) (r : Request) :
    List Emission × Bool :=
  match encode r with
  | .ok img => ([.resultReady img], true)
  | .error (.valueError msg) => ([.errorOccurred msg], true)
  | .error (.otherError _) => ([], false)

/-- Model of `WorkerThread.run` over the sequence of requests the worker
consumes, in consumption order: iterations run one after the other until
one raises an uncaught exception. -/
def runLoop (encode : Request → Except QrError Image) :
    List Request → List Emission × Bool
  | [] => ([], true)
  | r :: rs =>
    let p := runIteration encode r
    if p.2 then (p.1 ++ (runLoop encode rs).1, (runLoop encode rs).2)
    else (p.1, false)

/-! ## Concrete test vectors used by witness theorems -/

/-- Sample request with one character of text. -/
def reqA : Request :=
  { text := "A", error := "H", version := none, mode := none, scale := 5 }

/-- Sample request with two characters of text. -/
def reqB : Request :=
  { text := "AB", error := "H", version := none, mode := none, scale := 5 }

/-- Sample request with three characters of text. -/
def reqC : Request :=
  { text := "ABC", error := "M", version := some 1, mode := some "binary",
    scale := 3 }

/-- Sample request with empty text. -/
def reqEmpty : Request :=
  { text := "", error := "H", version := none, mode := none, scale := 5 }

/-- Concrete stand-in for the external encoder used by witnesses: fails
with a `ValueError` on empty text, otherwise succeeds with a fixed PNG
header. -/
def encodeW : Request → Except QrError Image := fun r =>
  if r.text = "" then .error (.valueError "no data")
  else .ok [137, 80, 78, 71]

/-- Concrete stand-in for an encoder that raises a non-ValueError on empty
text, used by witnesses. -/
def encodeCrash : Request → Except QrError Image := fun r =>
  if r.text = "" then .error (.otherError "TypeError")
  else .ok [137, 80, 78, 71]

/-! ## Lock-scope trace model (claim C6)

Each Python statement touching the mutex, the semaphore, the slot, or the
external library is one atomic action; the traces below transcribe, in
program order, the bodies of `set_parameters`, `get_parameters` and one
iteration of `run` from src/main.pyw. -/

/-- Atomic actions of the worker and the submitter. -/
inductive Action
  | semAcquire
  | semCheckRelease
  | mutexLock
  | mutexUnlock
  | slotWrite
  | slotRead
  | encoderCreate
  | rasterizePng
  | emitSignal
deriving DecidableEq, Repr

/-- Action trace of `WorkerThread.set_parameters` (src/main.pyw lines
40-44): `QMutexLocker` locks, the slot is written, the semaphore is
conditionally released, the locker unlocks on scope exit. -/
def set_parameters_trace : List Action :=
  [.mutexLock, .slotWrite, .semCheckRelease, .mutexUnlock]

/-- Action trace of `WorkerThread.get_parameters` (src/main.pyw lines
46-51): the acquire precedes the lock; under the lock the slot is read and
cleared (a write of `None`); the locker unlocks on scope exit. -/
def get_parameters_trace : List Action :=
  [.semAcquire, .mutexLock, .slotRead, .slotWrite, .mutexUnlock]

/-- Action trace of one iteration of `WorkerThread.run` (src/main.pyw
lines 26-38): take the parameters, then `pyqrcode.create`, `qr.png`, and
the signal emission. -/
def run_iteration_trace : List Action :=
  get_parameters_trace ++ [.encoderCreate, .rasterizePng, .emitSignal]

/-- Whether the mutex is held after executing action `a` when it was held
(`held`) before. -/
def mutexAfter (held : Bool) (a : Action) : Bool :=
  match a with
  | .mutexLock => true
  | .mutexUnlock => false
  | _ => held

/-- Pair each action of a trace with whether the mutex is held when it
executes (the lock state just before it runs). -/
def heldBeforeEach : Bool → List Action → List (Action × Bool)
  | _, [] => []
  | held, a :: as => (a, held) :: heldBeforeEach (mutexAfter held a) as

/-- The O(1) slot operations (and the conditional semaphore release of
`set_parameters`) that the design allows inside the critical section. -/
abbrev slotO1Action (a : Action) : Prop :=
  a = .slotRead ∨ a = .slotWrite ∨ a = .semCheckRelease

end QrEncoder

namespace QrEncoder

/-! ## Helper lemmas -/

/-- A sequence of submits never pushes the semaphore above 1. -/
lemma submitAll_sem_le_one :
    ∀ (rs : List Request) (s : MailboxState), s.semaphore ≤ 1 →
      (submitAll s rs).semaphore ≤ 1 := by
  intro rs
  induction rs with
  | nil => intro s h; exact h
  | cons a as ih =>
    intro s h
    have hstep : (set_parameters s a).semaphore ≤ 1 := by
      simp only [set_parameters]
      split <;> omega
    simpa [submitAll, List.foldl] using ih (set_parameters s a) hstep

/-- An iteration on a request whose encoding does not raise an unknown
error emits exactly one signal and leaves the loop alive. -/
lemma runIteration_length (encode : Request → Except QrError Image)
    (r : Request) (h : ∀ msg, encode r ≠ .error (.otherError msg)) :
    (runIteration encode r).1.length = 1 ∧ (runIteration encode r).2 = true := by
  cases he : encode r with
  | ok img => simp [runIteration, he]
  | error e =>
    cases e with
    | valueError m => simp [runIteration, he]
    | otherError m => exact absurd he (h m)

/-! ## Claims C8, C10 -/

/-- C8. Version sentinel mapping: whatever raw value the version spin box is
given, the version field of the Request is `none` (AUTO) or `some w` with
`w` in `[1, 40]`; the sentinel 0 maps to AUTO, and every `v` in `[1, 40]`
is carried unchanged. -/
theorem c8_version_sentinel :
    get_version 0 = none ∧
    (∀ v : Int, 1 ≤ v → v ≤ 40 → get_version v = some v) ∧
    (∀ x : Int,
      (request_new_qr_code
        { lineEditText := "", errorCorrectionData := "M",
          versionBoxRaw := x, modeData := none, scaleBoxRaw := 5 }).version
        = none ∨
      ∃ w : Int,
        (request_new_qr_code
          { lineEditText := "", errorCorrectionData := "M",
            versionBoxRaw := x, modeData := none, scaleBoxRaw := 5 }).version
          = some w ∧ 1 ≤ w ∧ w ≤ 40) := by
  refine ⟨rfl, ?_, ?_⟩
  · intro v h1 h40
    have hv : v ≠ 0 := by omega
    simp [get_version, hv]
  · intro x
    by_cases h : version_box_range x = 0
    · left
      simp [request_new_qr_code, get_version, h]
    · right
      refine ⟨version_box_range x, ?_, ?_, ?_⟩
      · simp [request_new_qr_code, get_version, h]
      · have : 0 ≤ version_box_range x := le_max_left 0 _
        omega
      · exact max_le (by norm_num) (min_le_left 40 x)

/-- Witness for C8 at concrete inputs: version 7 is in range and carried
unchanged; the clamped spin-box output at raw value 7 is `some 7`. -/
theorem c8_version_sentinel_witness :
    (1 : Int) ≤ 7 ∧ (7 : Int) ≤ 40 ∧ get_version 7 = some 7 :=
  ⟨by decide, by decide, c8_version_sentinel.2.1 7 (by decide) (by decide)⟩

/-- C10. Implicit scale bound: every Request built by
`request_new_qr_code` carries a scale in `[1, 10]`, and the initial spin-box
value 5 is stored as 5. -/
theorem c10_scale_bound :
    (∀ ui : UiState,
      1 ≤ (request_new_qr_code ui).scale ∧ (request_new_qr_code ui).scale ≤ 10) ∧
    scale_box_value 5 = 5 := by
  constructor
  · intro ui
    constructor
    · exact le_max_left 1 _
    · exact max_le (by norm_num) (min_le_left 10 ui.scaleBoxRaw)
  · decide

/-! ## Claim C1 -/

/-- C1. Latest-wins coalescing: after any nonempty sequence of submits
`rs ++ [rlast]` on the fresh mailbox with no intervening take, the mailbox
state equals the state a single submit of `rlast` alone would produce
(slot holds only `rlast`, semaphore 1, so no queue of N items exists and
the earlier requests leave no trace), and a single take then returns
exactly `rlast`, leaving the mailbox back in its initial state.  In
particular no earlier request is ever returned by the take. -/
theorem c1_latest_wins (rs : List Request) (rlast : Request) :
    submitAll mailboxInit (rs ++ [rlast]) =
      { parameters := some rlast, semaphore := 1 } ∧
    submitAll mailboxInit (rs ++ [rlast]) = submitAll mailboxInit [rlast] ∧
    (get_parameters (submitAll mailboxInit (rs ++ [rlast]))).1 = some rlast ∧
    (get_parameters (submitAll mailboxInit (rs ++ [rlast]))).2 = mailboxInit := by
  have hsem : (submitAll mailboxInit rs).semaphore ≤ 1 :=
    submitAll_sem_le_one rs mailboxInit (by simp [mailboxInit])
  have happ : submitAll mailboxInit (rs ++ [rlast]) =
      set_parameters (submitAll mailboxInit rs) rlast := by
    simp [submitAll, List.foldl_append]
  have hmain : submitAll mailboxInit (rs ++ [rlast]) =
      { parameters := some rlast, semaphore := 1 } := by
    rw [happ]
    simp only [set_parameters]
    split
    · rename_i h0
      simp [h0]
    · rename_i hne
      have : (submitAll mailboxInit rs).semaphore = 1 := by omega
      simp [this]
  refine ⟨hmain, ?_, ?_, ?_⟩
  · rw [hmain]; rfl
  · rw [hmain]; rfl
  · rw [hmain]; rfl

/-! ## Claim C3 -/

/-- C3. Validation-error isolation: when the encoder raises a `ValueError`
on a consumed request, the iteration emits exactly one `errorOccurred`
signal carrying the message instead of propagating the exception, the loop
stays alive, and the rest of the consumed requests are processed exactly
as they would be on their own. -/
theorem c3_validation_error_isolation
    (encode : Request → Except QrError Image) (r next : Request)
    (rest : List Request) (msg : String)
    (hr : encode r = .error (.valueError msg)) :
    runIteration encode r = ([.errorOccurred msg], true) ∧
    runLoop encode (r :: next :: rest) =
      (.errorOccurred msg :: (runLoop encode (next :: rest)).1,
        (runLoop encode (next :: rest)).2) := by
  have h1 : runIteration encode r = ([.errorOccurred msg], true) := by
    simp [runIteration, hr]
  refine ⟨h1, ?_⟩
  simp [runLoop, h1]

/-- Witness for C3: under the concrete encoder `encodeW`, the empty-text
request produces a `ValueError`; the iteration converts it to one
`errorOccurred` emission and the next request is still processed. -/
theorem c3_validation_error_isolation_witness :
    encodeW reqEmpty = .error (.valueError "no data") ∧
    runIteration encodeW reqEmpty = ([.errorOccurred "no data"], true) ∧
    runLoop encodeW (reqEmpty :: reqA :: []) =
      (.errorOccurred "no data" :: (runLoop encodeW (reqA :: [])).1,
        (runLoop encodeW (reqA :: [])).2) := by
  have h : encodeW reqEmpty = .error (.valueError "no data") := by
    simp [encodeW, reqEmpty]
  have := c3_validation_error_isolation encodeW reqEmpty reqA [] "no data" h
  exact ⟨h, this.1, this.2⟩

/-! ## Claim C4 -/

/-- C4. Exactly-once delivery: over any sequence of consumed requests on
which the encoder never raises an unknown (non-ValueError) error, each
consumed request contributes exactly one emission (one `resultReady` or
one `errorOccurred`), the total number of emissions equals the number of
consumed requests, and the loop survives. -/
theorem c4_exactly_once (encode : Request → Except QrError Image)
    (rs : List Request)
    (h : ∀ r ∈ rs, ∀ msg, encode r ≠ .error (.otherError msg)) :
    (∀ r ∈ rs, (runIteration encode r).1.length = 1) ∧
    (runLoop encode rs).1.length = rs.length ∧
    (runLoop encode rs).2 = true := by
  induction rs with
  | nil => simp [runLoop]
  | cons a as ih =>
    have ha := runIteration_length encode a
      (h a (by simp))
    have ihs := ih (fun r hr msg => h r (by simp [hr]) msg)
    refine ⟨?_, ?_, ?_⟩
    · intro r hr
      rcases List.mem_cons.mp hr with h1 | h2
      · rw [h1]; exact ha.1
      · exact ihs.1 r h2
    · simp [runLoop, ha.2, ha.1, ihs.2.1]
      omega
    · simp [runLoop, ha.2, ihs.2.2]

/-- Witness for C4 on the concrete encoder `encodeW` and the two-request
sequence `[reqA, reqEmpty]` (one success, one validation failure): two
consumed requests, two emissions, loop alive. -/
theorem c4_exactly_once_witness :
    (∀ r ∈ [reqA, reqEmpty], (runIteration encodeW r).1.length = 1) ∧
    (runLoop encodeW [reqA, reqEmpty]).1.length = 2 ∧
    (runLoop encodeW [reqA, reqEmpty]).2 = true := by
  have h : ∀ r ∈ [reqA, reqEmpty], ∀ msg,
      encodeW r ≠ .error (.otherError msg) := by
    intro r hr msg
    rcases List.mem_cons.mp hr with h1 | h2
    · rw [h1]; simp [encodeW, reqA]
    · simp at h2
      rw [h2]; simp [encodeW, reqEmpty]
  exact c4_exactly_once encodeW [reqA, reqEmpty] h

/-! ## Claim C5 -/

/-- C5. Unknown errors are fatal: when the encoder raises anything other
than a `ValueError` on a consumed request, the iteration emits nothing (in
particular the error is not converted into an `errorOccurred` failure
result), and the worker loop terminates without processing any further
request. -/
theorem c5_unknown_errors_fatal (encode : Request → Except QrError Image)
    (r : Request) (rest : List Request) (msg : String)
    (hr : encode r = .error (.otherError msg)) :
    runIteration encode r = ([], false) ∧
    runLoop encode (r :: rest) = ([], false) := by
  have h1 : runIteration encode r = ([], false) := by
    simp [runIteration, hr]
  exact ⟨h1, by simp [runLoop, h1]⟩

/-- Witness for C5: under `encodeCrash` the empty-text request raises a
non-ValueError; the worker emits nothing and stops, dropping the later
request `reqA`. -/
theorem c5_unknown_errors_fatal_witness :
    encodeCrash reqEmpty = .error (.otherError "TypeError") ∧
    runIteration encodeCrash reqEmpty = ([], false) ∧
    runLoop encodeCrash (reqEmpty :: reqA :: []) = ([], false) := by
  have h : encodeCrash reqEmpty = .error (.otherError "TypeError") := by
    simp [encodeCrash, reqEmpty]
  have := c5_unknown_errors_fatal encodeCrash reqEmpty [reqA] "TypeError" h
  exact ⟨h, this.1, this.2⟩

/-! ## Claim C7 -/

/-- C7. No starvation: after a single submit on the fresh mailbox and no
further submissions, the semaphore is positive, so the worker's blocking
`acquire(1)` is enabled and completes; the take returns exactly the
submitted request and empties the mailbox, and the ensuing iteration
delivers exactly one emission for it (provided the encoder does not raise
an unknown error, in which case the design makes the failure fatal
instead). -/
theorem c7_no_starvation (encode : Request → Except QrError Image)
    (r : Request) (h : ∀ msg, encode r ≠ .error (.otherError msg)) :
    0 < (set_parameters mailboxInit r).semaphore ∧
    (get_parameters (set_parameters mailboxInit r)).1 = some r ∧
    (get_parameters (set_parameters mailboxInit r)).2 = mailboxInit ∧
    (runLoop encode [r]).1.length = 1 := by
  have hi := runIteration_length encode r h
  refine ⟨by simp [set_parameters, mailboxInit], rfl, rfl, ?_⟩
  simp [runLoop, hi.2, hi.1]

/-- Witness for C7 at the concrete request `reqA` and encoder `encodeW`. -/
theorem c7_no_starvation_witness :
    0 < (set_parameters mailboxInit reqA).semaphore ∧
    (get_parameters (set_parameters mailboxInit reqA)).1 = some reqA ∧
    (get_parameters (set_parameters mailboxInit reqA)).2 = mailboxInit ∧
    (runLoop encodeW [reqA]).1.length = 1 := by
  have h : ∀ msg, encodeW reqA ≠ .error (.otherError msg) := by
    intro msg
    simp [encodeW, reqA]
  exact c7_no_starvation encodeW reqA h

/-! ## Claim C2 -/

/-- C2. Wake-signal discipline is VIOLATED by the code.  The release in
`set_parameters` fires whenever `available() == 0`, not when the slot is
empty, and the acquire in `get_parameters` happens outside the mutex.  On
the interleaving submit(reqA); acquire; submit(reqB) the second submit
overwrites an occupied slot and still releases the semaphore (second
conjunct: a step that raises `sem` from 0 to 1 while the slot holds
`reqA`), so the state with the taker past its acquire and an empty slot
behind it becomes reachable (third conjunct), from which the take
completes returning `None` (fourth conjunct).  Hence both halves of the
claimed discipline fail (last two conjuncts). -/
theorem c2_wake_signal_violated :
    Reachable { slot := some reqA, sem := 0, takerAcquired := true } ∧
    Step { slot := some reqA, sem := 0, takerAcquired := true }
         { slot := some reqB, sem := 1, takerAcquired := true } ∧
    Reachable { slot := none, sem := 0, takerAcquired := true } ∧
    Step { slot := none, sem := 0, takerAcquired := true }
         { slot := none, sem := 0, takerAcquired := false } ∧
    ¬ wakeOnlyOnEmptyToOccupied ∧ ¬ noEmptySlotBehindTake := by
  have s1 : Step sysInit { slot := some reqA, sem := 1, takerAcquired := false } :=
    Step.submit reqA sysInit
  have s2 : Step { slot := some reqA, sem := 1, takerAcquired := false }
      { slot := some reqA, sem := 0, takerAcquired := true } :=
    Step.acquire _ rfl (by decide)
  have s3 : Step { slot := some reqA, sem := 0, takerAcquired := true }
      { slot := some reqB, sem := 1, takerAcquired := true } :=
    Step.submit reqB _
  have s4 : Step { slot := some reqB, sem := 1, takerAcquired := true }
      { slot := none, sem := 1, takerAcquired := false } :=
    Step.takeFinish _ rfl
  have s5 : Step { slot := none, sem := 1, takerAcquired := false }
      { slot := none, sem := 0, takerAcquired := true } :=
    Step.acquire _ rfl (by decide)
  have s6 : Step { slot := none, sem := 0, takerAcquired := true }
      { slot := none, sem := 0, takerAcquired := false } :=
    Step.takeFinish _ rfl
  have reachA : Reachable { slot := some reqA, sem := 0, takerAcquired := true } :=
    Relation.ReflTransGen.tail (Relation.ReflTransGen.single s1) s2
  have reachEmpty : Reachable { slot := none, sem := 0, takerAcquired := true } :=
    Relation.ReflTransGen.tail (Relation.ReflTransGen.tail reachA s3) s4
      |>.tail s5
  refine ⟨reachA, s3, reachEmpty, s6, ?_, ?_⟩
  · intro hw
    have hx := hw { slot := some reqA, sem := 0, takerAcquired := true } reachA rfl
    simp at hx
  · intro hn
    exact hn { slot := none, sem := 0, takerAcquired := true } reachEmpty rfl rfl

/-! ## Claim C6 -/

/-- C6. Lock scope invariant: along the traces of `set_parameters` and of
one worker iteration, every action that executes while the mutex is held
is an O(1) slot or semaphore-check action (or the unlock itself); the
encoder call and the rasterization always execute with the mutex free;
and within the worker iteration the unlock strictly precedes
`pyqrcode.create`. -/
theorem c6_lock_scope :
    (∀ p ∈ heldBeforeEach false run_iteration_trace,
        p.2 = true → slotO1Action p.1 ∨ p.1 = .mutexUnlock) ∧
    (∀ p ∈ heldBeforeEach false set_parameters_trace,
        p.2 = true → slotO1Action p.1 ∨ p.1 = .mutexUnlock) ∧
    (∀ p ∈ heldBeforeEach false run_iteration_trace,
        (p.1 = .encoderCreate ∨ p.1 = .rasterizePng) → p.2 = false) ∧
    run_iteration_trace.indexOf .mutexUnlock <
      run_iteration_trace.indexOf .encoderCreate := by
  refine ⟨?_, ?_, ?_, ?_⟩ <;> decide

/-- Witness for C6: the slot read of the worker iteration executes while
the mutex is held, and it is one of the allowed O(1) actions. -/
theorem c6_lock_scope_witness :
    ((Action.slotRead, true) ∈ heldBeforeEach false run_iteration_trace) ∧
    (slotO1Action Action.slotRead ∨ Action.slotRead = Action.mutexUnlock) :=
  ⟨by decide, c6_lock_scope.1 (Action.slotRead, true) (by decide) (by decide)⟩

/-! ## Claim C9 -/

/-- C9 counterexample: the claim says the KANJI mode is offered at the
submission interface, but the mode combo box of src/main.pyw (lines
99-103) carries no item whose data is `"kanji"`. -/
theorem c9_kanji_not_offered :
    ¬ (some "kanji" ∈ mode_box_items.map Prod.snd) := by decide

/-- C9 (amended). Mode domain: the mode field of a Request can take each
of the values NUMERIC, ALPHANUMERIC, BINARY and AUTO; exactly these four
options are offered at the submission interface, and the selected item's
data is passed to the encoder unchanged. -/
theorem c9_mode_domain_amended :
    mode_box_items.map Prod.snd =
      [none, some "numeric", some "alphanumeric", some "binary"] ∧
    (∀ m ∈ mode_box_items.map Prod.snd, ∀ ui : UiState,
      (request_new_qr_code { ui with modeData := m }).mode = m) := by
  refine ⟨by decide, ?_⟩
  intro m hm ui
  rfl

/-- Witness for C9 (amended): the binary mode is offered and a Request
built with it carries it unchanged. -/
theorem c9_mode_domain_amended_witness :
    (some "binary" ∈ mode_box_items.map Prod.snd) ∧
    (request_new_qr_code
      { lineEditText := "A", errorCorrectionData := "H", versionBoxRaw := 0,
        modeData := some "binary", scaleBoxRaw := 5 }).mode = some "binary" := by
  refine ⟨by decide, ?_⟩
  exact c9_mode_domain_amended.2 (some "binary") (by decide)
    { lineEditText := "A", errorCorrectionData := "H", versionBoxRaw := 0,
      modeData := some "binary", scaleBoxRaw := 5 }

end QrEncoder
